import Mathlib

/-!
# Verification of `gimme_aws_creds/main.py`

A shallow embedding of the `GimmeAWSCreds` CLI tool (file `gimme_aws_creds/main.py`)
together with theorems settling the specification claims about it.

Conventions of the embedding:
* Python dicts holding fixed keys become Lean structures.
* `print(...); exit(n)` failure paths become `Except.error (message, exitStatus)`;
  a bare Python `exit()` raises `SystemExit(None)` and terminates the process
  with exit status `0`, so it is embedded as exit status `0`.
* Interactive `input()` is embedded as a stream `inputs : Nat → String` together
  with a cursor position threaded through the functions that read from it.
* Python `int(s)` parsing (which raises `ValueError` on non-numeric input) is
  embedded as `pyIntParse` below: an optional sign followed by a nonempty run
  of decimal digits (differences — Python additionally strips surrounding
  whitespace and accepts `_` digit separators — do not affect any input
  considered here).
* The external services (Okta HTTP APIs, the STS `assume_role_with_saml` call)
  are black boxes: their *inputs* built by the code are embedded precisely, and
  their results are parameters.
-/

/-- Propositional-equality decision procedure for `Except` values (core
provides none), so that concrete runs can be settled by `decide`. -/
instance {ε α : Type _} [DecidableEq ε] [DecidableEq α] : DecidableEq (Except ε α) := fun a b =>
  match a, b with
  | Except.error e, Except.error f =>
    if h : e = f then isTrue (by rw [h]) else isFalse (fun hh => h (Except.error.inj hh))
  | Except.ok v, Except.ok w =>
    if h : v = w then isTrue (by rw [h]) else isFalse (fun hh => h (Except.ok.inj hh))
  | Except.error _, Except.ok _ => isFalse (fun hh => Except.noConfusion hh)
  | Except.ok _, Except.error _ => isFalse (fun hh => Except.noConfusion hh)

namespace GAC

/-! ## String / regex model

`re.sub(':saml-provider.*', ':role/' + role, s)` from `_get_aws_account_info`
(main.py lines 170-172).  The regex matches the literal `:saml-provider`
followed by the greedy remainder of the line (`.` does not match `'\n'`);
`re.sub` replaces every non-overlapping match, scanning left to right and
resuming after each match.  If no match exists the string is returned
unchanged. -/

/-- `startsWithList pat cs`: does `cs` start with `pat`? -/
def startsWithList : List Char → List Char → Bool
  | [], _ => true
  | _ :: _, [] => false
  | p :: ps, c :: cs => p = c && startsWithList ps cs

/-- What remains of the input after the greedy `.*` has consumed the rest of
the current line: everything from the first `'\n'` on (or nothing). -/
def dropLine : List Char → List Char
  | [] => []
  | c :: cs => if c = '\n' then c :: cs else dropLine cs

/-- Left-to-right scan of `re.sub` for a pattern `pat ++ .*`: at a match,
emit the replacement, skip the match (the literal pattern plus the rest of
the line), and resume; otherwise keep the character and move on.  `fuel`
bounds the recursion; `fuel = cs.length` always suffices for nonempty `pat`. -/
def reSubGo (pat repl : List Char) : Nat → List Char → List Char
  | _, [] => []
  | 0, cs => cs
  | fuel + 1, c :: cs =>
    if startsWithList pat (c :: cs) then
      repl ++ reSubGo pat repl fuel (dropLine (List.drop pat.length (c :: cs)))
    else
      c :: reSubGo pat repl fuel cs

/-- The literal part of the pattern `':saml-provider.*'`. -/
def samlMarker : List Char := String.toList ":saml-provider"

/-- Embedding of `re.sub(':saml-provider.*', ':role/' + role, s)`
(main.py lines 170-172): the role-ARN derivation applied to the app's
`identityProviderArn`. -/
def re_sub_saml_provider (role : String) (s : String) : String :=
  String.mk (reSubGo samlMarker (String.toList (":role/" ++ role)) s.toList.length s.toList)

/-- Does `pat` occur as a contiguous sublist of `cs`? -/
def occursList (pat : List Char) : List Char → Bool
  | [] => startsWithList pat []
  | c :: cs => startsWithList pat (c :: cs) || occursList pat cs

/-- The characters of `cs` strictly before the first occurrence of `pat`
(all of `cs` when there is no occurrence). -/
def beforeFirstMatch (pat : List Char) : List Char → List Char
  | [] => []
  | c :: cs => if startsWithList pat (c :: cs) then [] else c :: beforeFirstMatch pat cs

/-- Substring test on strings (used to state whether an error message names
an identifier). -/
def occursStr (needle hay : String) : Bool :=
  occursList needle.toList hay.toList

/-! ## Data model -/

/-- One role inside an app entry, as built by `_get_aws_account_info`
(main.py lines 168-173): `{'name': role, 'arn': re.sub(...)}`. -/
structure Role where
  name : String
  arn : String
  deriving DecidableEq, Repr

/-- One entry of the processed app list (`new_app_entry`, main.py
lines 160-178). -/
structure App where
  id : String
  name : String
  identityProviderArn : String
  roles : List Role
  appLink : String
  appLogo : String
  deriving DecidableEq, Repr

/-- The fields of one raw Okta app record that `_get_aws_account_info`
reads: `app['name']` (the connector type), `app['id']`, `app['label']`,
`app['settings']['app']['identityProviderArn']`,
`app['_embedded']['user']['profile']['samlRoles']`, and the two links. -/
structure RawApp where
  name : String
  id : String
  label : String
  identityProviderArn : String
  samlRoles : List String
  appLink : String
  appLogo : String
  deriving DecidableEq, Repr

/-- The credential triple returned by STS (`response['Credentials']`). -/
structure Creds where
  AccessKeyId : String
  SecretAccessKey : String
  SessionToken : String
  deriving DecidableEq, Repr

/-- The request `_get_sts_creds` (main.py lines 84-95) submits to
`client.assume_role_with_saml`. -/
structure StsRequest where
  RoleArn : String
  PrincipalArn : String
  SAMLAssertion : String
  DurationSeconds : Nat
  deriving DecidableEq, Repr

/-- Embedding of the request construction in `_get_sts_creds` (main.py
lines 88-93): the arguments are passed through verbatim; no local
validation is performed on any of them. -/
def stsAssumeRoleRequest (role_arn idp_arn assertion : String) (duration : Nat) : StsRequest :=
  { RoleArn := role_arn, PrincipalArn := idp_arn,
    SAMLAssertion := assertion, DurationSeconds := duration }

/-! ## Catalog builder -/

/-- `role_info` for one saml role name (main.py lines 168-173). -/
def mkRole (idpArn : String) (role : String) : Role :=
  { name := role, arn := re_sub_saml_provider role idpArn }

/-- `new_app_entry` for one matching raw app record (main.py lines 160-178).
The roles list is built by the inner loop over
`app['_embedded']['user']['profile']['samlRoles']`, one entry per name,
in order. -/
def mkAppEntry (app : RawApp) : App :=
  { id := app.id, name := app.label, identityProviderArn := app.identityProviderArn,
    roles := app.samlRoles.map (mkRole app.identityProviderArn),
    appLink := app.appLink, appLogo := app.appLogo }

/-- The filtering loop of `_get_aws_account_info` (main.py lines 155-179):
keep exactly the records whose connector type `app['name']` is
`'amazon_aws'`, each mapped to its `new_app_entry`, preserving order. -/
def appListOf (final_result : List RawApp) : List App :=
  (final_result.filter (fun a => a.name == "amazon_aws")).map mkAppEntry

/-- The tail of `_get_aws_account_info` (main.py lines 155-186): build
`app_list` and, if it is empty, `print("No AWS accounts found.")` followed by
a bare `exit()` — which terminates the process with exit status `0`. -/
def get_aws_account_info_filter (final_result : List RawApp) :
    Except (String × Nat) (List App) :=
  let app_list := appListOf final_result
  if app_list.isEmpty then Except.error ("No AWS accounts found.", 0)
  else Except.ok app_list

/-- `_call_gimme_creds_server` (main.py lines 97-107): if `response.json()`
is falsy (an empty list), `print("No AWS accounts found.")` and bare
`exit()` (exit status `0`); otherwise return the parsed list. -/
def call_gimme_creds_server (responseJson : List App) :
    Except (String × Nat) (List App) :=
  if responseJson.isEmpty then Except.error ("No AWS accounts found.", 0)
  else Except.ok responseJson

/-! ## Credential store (`configparser.RawConfigParser`) model

`_write_aws_creds` (main.py lines 59-82) reads the existing credentials file
into a `RawConfigParser`, ensures the target section exists, sets the three
credential options, and writes the parser's contents back out.  The store is
embedded as its parsed value: an ordered list of sections, each an ordered
association list of options.  `configparser` keeps at most one section per
name (`read` merges duplicates, `add_section` refuses an existing name), so
the operations below act on the first section of the given name. -/

/-- One section's option list. -/
abbrev KVList := List (String × String)

/-- The parsed credentials file: sections in order, each with its options. -/
abbrev Store := List (String × KVList)

/-- Option lookup within one section (`parser.get`): first binding wins. -/
def lookupKV : KVList → String → Option String
  | [], _ => none
  | (k', v') :: rest, k => if k' = k then some v' else lookupKV rest k

/-- `parser.set` restricted to one section's options: overwrite an existing
binding in place (keeping its position), otherwise append a new one. -/
def setKV : KVList → String → String → KVList
  | [], k, v => [(k, v)]
  | (k', v') :: rest, k, v =>
    if k' = k then (k, v) :: rest else (k', v') :: setKV rest k v

/-- `config.has_section(p)` (main.py line 73). -/
def has_section : Store → String → Bool
  | [], _ => false
  | sec :: rest, p => sec.1 == p || has_section rest p

/-- `config.add_section(p)` (main.py line 74): a fresh empty section is
appended. -/
def add_section (config : Store) (p : String) : Store :=
  config ++ [(p, [])]

/-- `config.set(p, k, v)` (main.py lines 76-78): set option `k` in section
`p`.  The section is guaranteed present at every call site (`has_section` /
`add_section` run first), so the missing-section branch — where `configparser`
would raise `NoSectionError` — is never reached. -/
def config_set : Store → String → String → String → Store
  | [], _, _, _ => []
  | sec :: rest, p, k, v =>
    if sec.1 = p then (sec.1, setKV sec.2 k v) :: rest
    else sec :: config_set rest p k v

/-- `config.get(p, k)` as an `Option`: option `k` of the section named `p`. -/
def config_get : Store → String → String → Option String
  | [], _, _ => none
  | sec :: rest, p, k => if sec.1 = p then lookupKV sec.2 k else config_get rest p k

/-- Embedding of `_write_aws_creds` (main.py lines 59-82) as the store
transformation it performs: ensure the `profile` section exists, then set
`aws_access_key_id`, `aws_secret_access_key` and `aws_session_token` in it.
The surrounding file I/O (reading the existing file, writing the result
back) is represented by the store value in and out. -/
def _write_aws_creds (config : Store) (profile access_key secret_key token : String) : Store :=
  let c1 := if has_section config profile then config else add_section config profile
  let c2 := config_set c1 profile "aws_access_key_id" access_key
  let c3 := config_set c2 profile "aws_secret_access_key" secret_key
  config_set c3 profile "aws_session_token" token

/-! ## Interactive selection -/

/-- Decimal digit run: value of `ds` appended to accumulator `acc`, or
`none` if some character is not a digit. -/
def parseDigits : List Char → Nat → Option Nat
  | [], acc => some acc
  | c :: cs, acc =>
    if '0' ≤ c ∧ c ≤ '9' then parseDigits cs (acc * 10 + (c.toNat - 48))
    else none

/-- Model of Python `int(s)`: optional `+`/`-` sign followed by a nonempty
digit run; anything else raises `ValueError` (`none` here). -/
def pyIntParse (s : String) : Option Int :=
  match s.toList with
  | [] => none
  | '-' :: cs =>
    if cs.isEmpty then none
    else (parseDigits cs 0).map (fun n => -(n : Int))
  | '+' :: cs =>
    if cs.isEmpty then none
    else (parseDigits cs 0).map (fun n => (n : Int))
  | cs => (parseDigits cs 0).map (fun n => (n : Int))

/-- The retry loop of `_get_user_int_selection` (main.py lines 261-267):
starting at stream position `pos` with `retries` attempts left, read inputs
until one parses as an integer (`int(input(...))`; a failed parse raises
`ValueError`, prints the re-prompt message, and consumes one attempt).
Returns the parsed selection (or `none` if every attempt failed) and the
position after the last input read. -/
def selLoop (inputs : Nat → String) : Nat → Nat → Option Int × Nat
  | 0, pos => (none, pos)
  | retries + 1, pos =>
    match pyIntParse (inputs pos) with
    | some n => (some n, pos + 1)
    | none => selLoop inputs retries (pos + 1)

/-- `_get_user_int_selection(min_int, max_int, max_retries)` (main.py lines
259-276): run the retry loop; a loop that never parsed an integer yields
`None`, and a parsed integer outside `[min_int, max_int]` also yields `None`
(the loop has already terminated — an out-of-range integer is not
re-prompted). -/
def _get_user_int_selection (min_int max_int : Int) (max_retries : Nat)
    (inputs : Nat → String) (pos : Nat) : Option Int × Nat :=
  match selLoop inputs max_retries pos with
  | (none, p) => (none, p)
  | (some selection, p) =>
    if selection < min_int ∨ selection > max_int then (none, p)
    else (some selection, p)

/-- `_choose_app` (main.py lines 188-214).  `None` is returned for an empty
list (the app dicts themselves are non-empty, hence truthy, so `app_strs` is
empty exactly when `aws_info` is); an invalid selection prints
`You made an invalid selection` and exits with status 1.  The selection is
range-checked, so the list index never fails; the unreachable out-of-range
index is collapsed into the returned-`none` case. -/
def _choose_app (aws_info : List App) (inputs : Nat → String) (pos : Nat) :
    Except (String × Nat) (Option App × Nat) :=
  if aws_info.isEmpty then Except.ok (none, pos)
  else
    match _get_user_int_selection 0 ((aws_info.length : Int) - 1) 5 inputs pos with
    | (none, _) => Except.error ("You made an invalid selection", 1)
    | (some selection, p) => Except.ok (aws_info.get? selection.toNat, p)

/-- `_choose_role` (main.py lines 230-257).  Role dicts are non-empty, hence
truthy, so `role_strs` is empty exactly when `app_info['roles']` is; the
selection bound is `len(app_info['roles']) - 1` as in the source. -/
def _choose_role (app_info : App) (inputs : Nat → String) (pos : Nat) :
    Except (String × Nat) (Option Role × Nat) :=
  if app_info.roles.isEmpty then Except.ok (none, pos)
  else
    match _get_user_int_selection 0 ((app_info.roles.length : Int) - 1) 5 inputs pos with
    | (none, _) => Except.error ("You made an invalid selection", 1)
    | (some selection, p) => Except.ok (app_info.roles.get? selection.toNat, p)

/-- `_get_app_by_name` (main.py lines 216-221): return the first app whose
`name` equals `appname`; falling off the loop returns `None`.  No user input
is read. -/
def _get_app_by_name (aws_info : List App) (appname : String) : Option App :=
  aws_info.find? (fun app => app.name == appname)

/-- `_get_role_by_name` (main.py lines 223-228): first role of the app whose
`name` equals `rolename`, else `None`.  No user input is read. -/
def _get_role_by_name (app_info : App) (rolename : String) : Option Role :=
  app_info.roles.find? (fun role => role.name == rolename)

/-! ## Orchestration (`run`, main.py lines 336-393) -/

/-- Python truthiness test `not conf_dict.get(key)` for a string-valued
config entry: falsy when the key is missing/`None` or the value is the empty
string. -/
def falsyOpt : Option String → Bool
  | none => true
  | some s => s == ""

/-- Python `str(...)`/`format` rendering of a possibly-missing config value
(`None` renders as `"None"`). -/
def pyStrOpt : Option String → String
  | none => "None"
  | some s => s

/-- The configuration entries `run` reads after the catalog is built. -/
structure RunConfig where
  aws_appname : Option String
  aws_rolename : Option String
  write_aws_creds : String
  cred_profile : String
  deriving DecidableEq, Repr

/-- Application resolution in `run` (main.py lines 338-346): interactive
choice when `aws_appname` is falsy, exact-name lookup otherwise; a falsy
result prints `AWS app {aws_appname} not found for this user.` and exits
with status 1. -/
def resolveApp (aws_results : List App) (aws_appname : Option String)
    (inputs : Nat → String) (pos : Nat) : Except (String × Nat) (App × Nat) :=
  match (if falsyOpt aws_appname then _choose_app aws_results inputs pos
         else Except.ok (_get_app_by_name aws_results (aws_appname.getD ""), pos)) with
  | Except.error e => Except.error e
  | Except.ok (none, _) =>
    Except.error ("AWS app " ++ pyStrOpt aws_appname ++ " not found for this user.", 1)
  | Except.ok (some app, p) => Except.ok (app, p)

/-- Role resolution in `run` (main.py lines 348-356): interactive choice when
`aws_rolename` is falsy, exact-name lookup otherwise; a falsy result prints
the fixed message `No roles available to this user.` and exits with
status 1. -/
def resolveRole (aws_app : App) (aws_rolename : Option String)
    (inputs : Nat → String) (pos : Nat) : Except (String × Nat) (Role × Nat) :=
  match (if falsyOpt aws_rolename then _choose_role aws_app inputs pos
         else Except.ok (_get_role_by_name aws_app (aws_rolename.getD ""), pos)) with
  | Except.error e => Except.error e
  | Except.ok (none, _) => Except.error ("No roles available to this user.", 1)
  | Except.ok (some role, p) => Except.ok (role, p)

/-- ASCII lower-casing of one character. -/
def pyLowerChar (c : Char) : Char :=
  if 'A' ≤ c ∧ c ≤ 'Z' then Char.ofNat (c.toNat + 32) else c

/-- Model of Python `str.lower()` (as applied to `cred_profile`; ASCII —
Python also lowers non-ASCII letters, which no configuration value here
contains). -/
def pyLower (s : String) : String :=
  String.mk (s.toList.map pyLowerChar)

/-- `self.AWS_CONFIG` — the credentials-file path (`~/.aws/credentials`,
with `~` standing for the user's home directory; its exact expansion plays
no role in any claim). -/
def AWS_CONFIG : String := "~/.aws/credentials"

/-- The profile-name policy of `run` (main.py lines 372-377):
`conf_dict['cred_profile'].lower()` equal to `'default'` selects the literal
`default`, equal to `'role'` selects `conf_dict['aws_rolename']` — a direct
dict index, which raises `KeyError` when the key is absent — and anything
else is used verbatim. -/
def profileNameFor (cred_profile : String) (aws_rolename : Option String) :
    Except String String :=
  if pyLower cred_profile = "default" then Except.ok "default"
  else if pyLower cred_profile = "role" then
    match aws_rolename with
    | none => Except.error "KeyError: aws_rolename"
    | some r => Except.ok r
  else Except.ok cred_profile

/-- Observable effects of the delivery stage. -/
structure DeliverResult where
  stdout : List String
  stderr : List String
  wrote : Option (String × Store)
  deriving DecidableEq, Repr

/-- The delivery stage of `run` (main.py lines 367-391).  Persist mode is
selected exactly when `str(conf_dict['write_aws_creds'])` equals `'True'`
(the parameter is that rendered value): it prints `writing to  ~/.aws/credentials`
to stdout (two spaces: `print` with two arguments), resolves the profile
name and updates the store.  Otherwise the three `export` lines are printed
to `sys.stderr` and nothing else happens. -/
def deliverStage (write_aws_creds cred_profile : String) (aws_rolename : Option String)
    (creds : Creds) (store : Store) : Except String DeliverResult :=
  if write_aws_creds = "True" then
    match profileNameFor cred_profile aws_rolename with
    | Except.error e => Except.error e
    | Except.ok profile_name =>
      Except.ok { stdout := ["writing to  " ++ AWS_CONFIG],
                  stderr := [],
                  wrote := some (profile_name,
                    _write_aws_creds store profile_name
                      creds.AccessKeyId creds.SecretAccessKey creds.SessionToken) }
  else
    Except.ok { stdout := [],
                stderr := ["export AWS_ACCESS_KEY_ID=" ++ creds.AccessKeyId,
                           "export AWS_SECRET_ACCESS_KEY=" ++ creds.SecretAccessKey,
                           "export AWS_SESSION_TOKEN=" ++ creds.SessionToken],
                wrote := none }

/-- What a full run produces past the catalog stage. -/
structure RunOutcome where
  request : StsRequest
  delivery : DeliverResult
  deriving DecidableEq, Repr

/-- `run` from the resolution stage on (main.py lines 336-393): resolve the
app, then the role (the interactive input stream position is threaded
through both), build the `assume_role_with_saml` request from the resolved
pair (`self.idp_arn`, `self.role_arn`, lines 358-365) with the default
duration 3600, obtain the credential triple from the black-box STS client
`sts`, and deliver.  An uncaught `KeyError` in the delivery stage terminates
the interpreter with status 1. -/
def runFromCatalog (conf : RunConfig) (aws_results : List App)
    (inputs : Nat → String) (saml : String) (sts : StsRequest → Creds)
    (store : Store) : Except (String × Nat) RunOutcome :=
  match resolveApp aws_results conf.aws_appname inputs 0 with
  | Except.error e => Except.error e
  | Except.ok (aws_app, p1) =>
    match resolveRole aws_app conf.aws_rolename inputs p1 with
    | Except.error e => Except.error e
    | Except.ok (aws_role, _) =>
      let req := stsAssumeRoleRequest aws_role.arn aws_app.identityProviderArn saml 3600
      let creds := sts req
      match deliverStage conf.write_aws_creds conf.cred_profile conf.aws_rolename creds store with
      | Except.error e => Except.error (e, 1)
      | Except.ok d => Except.ok { request := req, delivery := d }

/-! ## Concrete fixtures used in the claim theorems -/

/-- An AWS-connector app record with one saml role. -/
def raw_Prod : RawApp :=
  { name := "amazon_aws", id := "0oa1", label := "Prod",
    identityProviderArn := "arn:aws:iam::111:saml-provider/Okta",
    samlRoles := ["Admin"],
    appLink := "https://org.okta.com/home/amazon_aws/0oa1/137",
    appLogo := "https://logo.example/aws.png" }

/-- A second AWS-connector app record. -/
def raw_Dev : RawApp :=
  { name := "amazon_aws", id := "0oa2", label := "Dev",
    identityProviderArn := "arn:aws:iam::222:saml-provider/Okta",
    samlRoles := ["ReadOnly"],
    appLink := "https://org.okta.com/home/amazon_aws/0oa2/137",
    appLogo := "https://logo.example/aws.png" }

/-- An AWS-connector app record whose embedded profile lists no saml roles. -/
def raw_NoRoles : RawApp :=
  { name := "amazon_aws", id := "0oa3", label := "Empty",
    identityProviderArn := "arn:aws:iam::333:saml-provider/Okta",
    samlRoles := [],
    appLink := "https://org.okta.com/home/amazon_aws/0oa3/137",
    appLogo := "https://logo.example/aws.png" }

/-- A record of a different (non-AWS) connector type. -/
def raw_NonAws : RawApp :=
  { name := "slack", id := "0oa4", label := "Chat",
    identityProviderArn := "", samlRoles := [],
    appLink := "https://org.okta.com/home/slack/0oa4/1", appLogo := "" }

/-- A two-entry catalog (for the interactive-selection claims). -/
def twoApps : List App := appListOf [raw_Prod, raw_Dev]

/-- An app with a single role named `ReadOnly` (so a pin on `Admin`
misses). -/
def app_RO : App :=
  { id := "0oa5", name := "Ops", identityProviderArn := "arn:aws:iam::444:saml-provider/Okta",
    roles := [{ name := "ReadOnly", arn := "arn:aws:iam::444:role/ReadOnly" }],
    appLink := "https://org.okta.com/home/amazon_aws/0oa5/137", appLogo := "" }

/-- The interactive input sequence of the spec's example: `"x"`, `"9"`,
`"0"` (then empty). -/
def inputsC2 : Nat → String := fun i => (["x", "9", "0"].getD i "")

/-- A fixed credential triple for concrete runs. -/
def creds0 : Creds :=
  { AccessKeyId := "AKIAEXAMPLE", SecretAccessKey := "wJalrEXAMPLEKEY",
    SessionToken := "FQoGZXIvYXdzEXAMPLE" }

/-- Configuration for the persist-mode run with `cred_profile = role` and an
interactively-resolved role (the `aws_rolename` pin is the falsy empty
string). -/
def conf9 : RunConfig :=
  { aws_appname := some "Prod", aws_rolename := some "",
    write_aws_creds := "True", cred_profile := "role" }

end GAC

namespace GAC

/-! ## Lemmas about the regex model -/

theorem reSubGo_nil (pat repl : List Char) (fuel : Nat) :
    reSubGo pat repl fuel [] = [] := by
  cases fuel <;> rfl

theorem dropLine_eq_nil {l : List Char} (h : '\n' ∉ l) : dropLine l = [] := by
  induction l with
  | nil => rfl
  | cons c cs ih =>
    have hc : ¬ c = '\n' := fun hc => h (hc ▸ List.mem_cons_self c cs)
    have hcs : '\n' ∉ cs := fun hm => h (List.mem_cons_of_mem _ hm)
    simp [dropLine, hc, ih hcs]

/-- A string whose `re.sub` pattern never matches is returned unchanged. -/
theorem reSubGo_of_not_occurs (pat repl : List Char) :
    ∀ (fuel : Nat) (cs : List Char), occursList pat cs = false →
      reSubGo pat repl fuel cs = cs := by
  intro fuel
  induction fuel with
  | zero => intro cs _; cases cs <;> rfl
  | succ n ih =>
    intro cs hocc
    cases cs with
    | nil => rfl
    | cons c cs' =>
      rw [occursList, Bool.or_eq_false_iff] at hocc
      simp [reSubGo, hocc.1, ih cs' hocc.2]

/-- On a newline-free string containing a match, the scan yields everything
before the first match followed by the replacement (the greedy `.*` consumes
the whole remainder). -/
theorem reSubGo_of_occurs (pat repl : List Char) (hp : pat ≠ []) :
    ∀ (fuel : Nat) (cs : List Char), cs.length ≤ fuel →
      occursList pat cs = true → '\n' ∉ cs →
      reSubGo pat repl fuel cs = beforeFirstMatch pat cs ++ repl := by
  intro fuel
  induction fuel with
  | zero =>
    intro cs hlen hocc _
    have hcs : cs = [] := List.length_eq_zero.mp (Nat.le_zero.mp hlen)
    subst hcs
    cases pat with
    | nil => exact absurd rfl hp
    | cons p ps => simp [occursList, startsWithList] at hocc
  | succ n ih =>
    intro cs hlen hocc hnl
    cases cs with
    | nil =>
      cases pat with
      | nil => exact absurd rfl hp
      | cons p ps => simp [occursList, startsWithList] at hocc
    | cons c cs' =>
      by_cases hsw : startsWithList pat (c :: cs') = true
      · have hdrop : '\n' ∉ List.drop pat.length (c :: cs') :=
          fun hm => hnl ((List.drop_sublist _ _).mem hm)
        have hline : dropLine (List.drop pat.length (c :: cs')) = [] :=
          dropLine_eq_nil hdrop
        simp [reSubGo, hsw, hline, reSubGo_nil, beforeFirstMatch]
      · have hsw' : startsWithList pat (c :: cs') = false := by
          simpa using hsw
        have hocc' : occursList pat cs' = true := by
          rw [occursList, hsw', Bool.false_or] at hocc
          exact hocc
        have hnl' : '\n' ∉ cs' := fun hm => hnl (List.mem_cons_of_mem _ hm)
        have hlen' : cs'.length ≤ n := by
          simpa using Nat.succ_le_succ_iff.mp (by simpa using hlen)
        simp [reSubGo, hsw', beforeFirstMatch, ih cs' hlen' hocc' hnl']

theorem string_mk_append (a : List Char) (s : String) :
    String.mk a ++ s = String.mk (a ++ s.data) := rfl

/-- When the `identityProviderArn` does not contain the `:saml-provider`
marker, `re.sub` finds no match and returns the string unchanged. -/
theorem re_sub_id_of_no_marker (role ref : String)
    (h : occursList samlMarker ref.toList = false) :
    re_sub_saml_provider role ref = ref := by
  unfold re_sub_saml_provider
  rw [reSubGo_of_not_occurs _ _ _ _ h]
  rfl

/-- When the marker occurs in a newline-free `identityProviderArn`, the
derived ARN is the prefix before the first marker occurrence followed by
`:role/` and the role name. -/
theorem re_sub_split (role ref : String)
    (hocc : occursList samlMarker ref.toList = true)
    (hnl : '\n' ∉ ref.toList) :
    re_sub_saml_provider role ref
      = String.mk (beforeFirstMatch samlMarker ref.toList) ++ (":role/" ++ role) := by
  unfold re_sub_saml_provider
  rw [reSubGo_of_occurs samlMarker _ (by decide) _ _ (le_refl _) hocc hnl,
    string_mk_append]
  rfl

/-! ## Lemmas about the interactive selection loop -/

/-- If the first `k` inputs fail to parse and the `(k+1)`-st parses to `n`
within the retry budget, the loop returns `n` having consumed exactly
`k + 1` inputs. -/
theorem selLoop_spec (inputs : Nat → String) :
    ∀ (k retries pos : Nat) (n : Int), k < retries →
      (∀ j, j < k → pyIntParse (inputs (pos + j)) = none) →
      pyIntParse (inputs (pos + k)) = some n →
      selLoop inputs retries pos = (some n, pos + k + 1) := by
  intro k
  induction k with
  | zero =>
    intro retries pos n hk _ hparse
    cases retries with
    | zero => exact absurd hk (Nat.not_lt_zero _)
    | succ r => simp only [selLoop]; rw [show pos + 0 = pos from rfl] at hparse; simp [hparse]
  | succ k ih =>
    intro retries pos n hk hnone hparse
    cases retries with
    | zero => exact absurd hk (Nat.not_lt_zero _)
    | succ r =>
      have h0 : pyIntParse (inputs pos) = none := by
        simpa using hnone 0 (Nat.succ_pos k)
      have hnone' : ∀ j, j < k → pyIntParse (inputs (pos + 1 + j)) = none := by
        intro j hj
        rw [Nat.add_right_comm]
        exact hnone (j + 1) (Nat.succ_lt_succ hj)
      have hparse' : pyIntParse (inputs (pos + 1 + k)) = some n := by
        rw [Nat.add_right_comm]
        exact hparse
      have hres := ih r (pos + 1) n (Nat.lt_of_succ_lt_succ hk) hnone' hparse'
      simp only [selLoop, h0, hres]
      congr 1
      omega

/-! ## Claim C2 -/

/-- **C2 (counterexample).** Against the 2-entry catalog with input sequence
`"x"`, `"9"`, `"0"`, the selection loop does *not* re-prompt twice and accept
`0`: `"x"` fails to parse (one re-prompt), `"9"` parses and ends the loop,
and being out of range `[0, 1]` it yields no selection after only two inputs
were read; `_choose_app` then prints `You made an invalid selection` and the
process exits with status 1.  The trailing `"0"` is never read. -/
theorem claim_C2_counterexample :
    _get_user_int_selection 0 1 5 inputsC2 0 = (none, 2)
    ∧ _choose_app twoApps inputsC2 0
        = Except.error ("You made an invalid selection", 1) :=
  ⟨by decide, by decide⟩

/-- **C2 (amended).** The integer-input loop re-prompts on non-integer input
up to the retry budget; the first input that parses as an integer ends the
loop, and an out-of-range parsed integer yields no selection (which is fatal
for the caller) rather than further re-prompting: if the first `k` inputs
fail to parse and input `k` (0-based) parses to `n` within the budget, the
result is `n` when `min_int ≤ n ≤ max_int` and `none` otherwise, exactly
`k + 1` inputs having been consumed. -/
theorem claim_C2_amended (inputs : Nat → String) (pos k : Nat) (n min_int max_int : Int)
    (max_retries : Nat) (hk : k < max_retries)
    (hnone : ∀ j, j < k → pyIntParse (inputs (pos + j)) = none)
    (hparse : pyIntParse (inputs (pos + k)) = some n) :
    _get_user_int_selection min_int max_int max_retries inputs pos
      = ((if n < min_int ∨ n > max_int then none else some n), pos + k + 1) := by
  unfold _get_user_int_selection
  rw [selLoop_spec inputs k max_retries pos n hk hnone hparse]
  by_cases h : n < min_int ∨ n > max_int
  · simp [h]
  · simp [h]

/-- **C2 (witness).** The amended theorem applied concretely: inputs `"x"`,
`"3"` against range `[0, 9]` re-prompt once, then accept `3` having read two
inputs. -/
theorem claim_C2_witness :
    _get_user_int_selection 0 9 5 (fun i => ["x", "3"].getD i "") 0 = (some 3, 2) := by
  have h := claim_C2_amended (fun i => ["x", "3"].getD i "") 0 1 3 0 9 5 (by decide)
    (fun j hj => by interval_cases j; decide) (by decide)
  simpa using h

/-! ## Claim C1 -/

/-- **C1.** When zero eligible entitlements remain — internal mode: an app
list with no record of connector type `amazon_aws` (shown for the empty list
and for a list holding only a non-AWS record); server mode: an empty server
response — the code prints `No AWS accounts found.` and terminates via a
bare `exit()`, i.e. with exit **status 0**, not the claimed non-zero
status 1. -/
theorem claim_C1_exit_status_zero :
    get_aws_account_info_filter [] = Except.error ("No AWS accounts found.", 0)
    ∧ get_aws_account_info_filter [raw_NonAws]
        = Except.error ("No AWS accounts found.", 0)
    ∧ call_gimme_creds_server ([] : List App)
        = Except.error ("No AWS accounts found.", 0) :=
  ⟨by decide, by decide, by decide⟩

/-! ## Claim C3 -/

/-- **C3 (counterexample).** An AWS-connector app record whose embedded
`samlRoles` list is empty is *not* filtered out: the catalog builder
surfaces it (`Except.ok`) as an entitlement whose roles list is empty,
contradicting the claimed invariant. -/
theorem claim_C3_counterexample :
    get_aws_account_info_filter [raw_NoRoles] = Except.ok (appListOf [raw_NoRoles])
    ∧ (appListOf [raw_NoRoles]).map App.roles = [[]] :=
  ⟨by decide, by decide⟩

/-- **C3 (amended).** The catalog builder filters solely on the connector
type: the surfaced entitlements are exactly the records with
`app['name'] == 'amazon_aws'`, each mapped through `mkAppEntry` (one role
per `samlRoles` entry, so an AWS app with empty `samlRoles` yields an
entitlement with an empty roles list — empty-role entitlements are *not*
discarded). -/
theorem claim_C3_amended (final_result : List RawApp) (e : App) :
    e ∈ appListOf final_result
      ↔ ∃ a, a ∈ final_result ∧ a.name = "amazon_aws" ∧ e = mkAppEntry a := by
  constructor
  · intro he
    rcases List.mem_map.mp he with ⟨a, ha, rfl⟩
    rcases List.mem_filter.mp ha with ⟨ham, hname⟩
    exact ⟨a, ham, by simpa using hname, rfl⟩
  · rintro ⟨a, ham, hname, rfl⟩
    exact List.mem_map.mpr ⟨a, List.mem_filter.mpr ⟨ham, by simpa using hname⟩, rfl⟩

/-! ## Claim C4 -/

/-- **C4 (counterexample).** For the identityProviderRef
`arn:aws:iam::111:oidc-provider/Okta`, which lacks the `:saml-provider`
marker, the derivation returns the identifier *unchanged*, and the
`assume_role_with_saml` request built by `_get_sts_creds` carries that
unmodified identifier verbatim as its `RoleArn`: no local check treats the
reference as invalid or fails the exchange before submission. -/
theorem claim_C4_counterexample :
    re_sub_saml_provider "Admin" "arn:aws:iam::111:oidc-provider/Okta"
      = "arn:aws:iam::111:oidc-provider/Okta"
    ∧ (stsAssumeRoleRequest
        (re_sub_saml_provider "Admin" "arn:aws:iam::111:oidc-provider/Okta")
        "arn:aws:iam::111:oidc-provider/Okta" "assertion" 3600).RoleArn
      = "arn:aws:iam::111:oidc-provider/Okta" :=
  ⟨by decide, by decide⟩

/-- **C4 (amended).** For every identityProviderRef that does not contain
the `:saml-provider` marker, `re.sub` finds no match, so the derived role
reference is the identityProviderRef unchanged, and the request submitted to
the federation service carries that unmodified identifier as `RoleArn`; the
code performs no local validation and does not fail the exchange itself
(any failure would come from the remote service). -/
theorem claim_C4_amended (ref role idp assertion : String)
    (h : occursList samlMarker ref.toList = false) :
    re_sub_saml_provider role ref = ref
    ∧ (stsAssumeRoleRequest (re_sub_saml_provider role ref) idp assertion 3600).RoleArn
        = ref := by
  have h1 := re_sub_id_of_no_marker role ref h
  exact ⟨h1, by rw [h1]; rfl⟩

/-- **C4 (witness).** The amended theorem applied at a concrete marker-less
reference. -/
theorem claim_C4_witness :
    re_sub_saml_provider "Admin" "arn:aws:iam::555:oidc-provider/Example"
      = "arn:aws:iam::555:oidc-provider/Example"
    ∧ (stsAssumeRoleRequest
        (re_sub_saml_provider "Admin" "arn:aws:iam::555:oidc-provider/Example")
        "idp" "assertion" 3600).RoleArn
      = "arn:aws:iam::555:oidc-provider/Example" :=
  claim_C4_amended "arn:aws:iam::555:oidc-provider/Example" "Admin" "idp" "assertion"
    (by decide)

/-! ## Claim C5 -/

/-- **C5.** Role ARN derivation is a pure function of
`(identityProviderRef, roleName)` — it is a Lean function of exactly that
pair, so equal inputs yield the same ARN by construction.  For any
identityProviderRef containing the `:saml-provider` marker (and no newline
character, which the regex metacharacter `.` would stop at), there is a
single prefix — the part of the reference before the marker — such that
*every* role name `r` derives to `prefix ++ ":role/" ++ r`: changing only
the role name changes only the trailing path segment.  Concretely,
`arn:aws:iam::111:saml-provider/Okta` with role `Admin` yields
`arn:aws:iam::111:role/Admin`. -/
theorem claim_C5_arn_derivation (ref : String)
    (hocc : occursList samlMarker ref.toList = true)
    (hnl : '\n' ∉ ref.toList) :
    (∃ pre : String, ∀ r : String,
        re_sub_saml_provider r ref = pre ++ (":role/" ++ r))
    ∧ re_sub_saml_provider "Admin" "arn:aws:iam::111:saml-provider/Okta"
        = "arn:aws:iam::111:role/Admin" :=
  ⟨⟨String.mk (beforeFirstMatch samlMarker ref.toList),
      fun r => re_sub_split r ref hocc hnl⟩,
    by decide⟩

/-- **C5 (witness).** The theorem applied at the spec's example reference. -/
theorem claim_C5_witness :
    ∃ pre : String, ∀ r : String,
      re_sub_saml_provider r "arn:aws:iam::111:saml-provider/Okta"
        = pre ++ (":role/" ++ r) :=
  (claim_C5_arn_derivation "arn:aws:iam::111:saml-provider/Okta"
    (by decide) (by decide)).1

/-! ## Claims C6 and C10: pinned-name lookup -/

/-- First-match property of `List.find?` in the split form used below. -/
theorem find?_first_of_split {α : Type _} (p : α → Bool) (pre post : List α) (a : α)
    (hpre : ∀ x ∈ pre, p x = false) (ha : p a = true) :
    (pre ++ a :: post).find? p = some a := by
  induction pre with
  | nil => simp [List.find?_cons_of_pos _ ha]
  | cons b bs ih =>
    rw [List.cons_append,
      List.find?_cons_of_neg _ (by simp [hpre b (List.mem_cons_self b bs)])]
    exact ih (fun x hx => hpre x (List.mem_cons_of_mem _ hx))

/-- **C10.** Pinned lookup by name is a pure first-match scan, identically
for applications (`_get_app_by_name`) and roles (`_get_role_by_name`): in a
candidate list split as `pre ++ a :: post` where nothing in `pre` matches
and `a` does, the *first* matching entry `a` is returned in catalog order
(so with duplicate names the earliest wins), and when nothing matches the
result is `None`.  Neither function takes the input stream: no user input
is solicited. -/
theorem claim_C10_pinned_lookup
    (pre post : List App) (a : App) (n : String) (l : List App)
    (app other : App) (preR postR : List Role) (ro : Role) (m : String)
    (hpre : ∀ x ∈ pre, x.name ≠ n) (ha : a.name = n)
    (hnone : ∀ x ∈ l, x.name ≠ n)
    (happ : app.roles = preR ++ ro :: postR)
    (hpreR : ∀ x ∈ preR, x.name ≠ m) (hro : ro.name = m)
    (hnoneR : ∀ x ∈ other.roles, x.name ≠ m) :
    _get_app_by_name (pre ++ a :: post) n = some a
    ∧ _get_app_by_name l n = none
    ∧ _get_role_by_name app m = some ro
    ∧ _get_role_by_name other m = none := by
  refine ⟨?_, ?_, ?_, ?_⟩
  · exact find?_first_of_split _ pre post a
      (fun x hx => by simp [hpre x hx]) (by simp [ha])
  · exact List.find?_eq_none.mpr (fun x hx => by simp [hnone x hx])
  · unfold _get_role_by_name
    rw [happ]
    exact find?_first_of_split _ preR postR ro
      (fun x hx => by simp [hpreR x hx]) (by simp [hro])
  · exact List.find?_eq_none.mpr (fun x hx => by simp [hnoneR x hx])

/-- An app whose roles list holds two roles with the same name `Admin`. -/
def app_DupRoles : App :=
  { id := "0oa6", name := "Dup", identityProviderArn := "arn:aws:iam::666:saml-provider/Okta",
    roles := [{ name := "Admin", arn := "arn:aws:iam::666:role/Admin" },
              { name := "Admin", arn := "arn:aws:iam::777:role/Admin" }],
    appLink := "https://org.okta.com/home/amazon_aws/0oa6/137", appLogo := "" }

/-- **C10 (witness).** The theorem applied to a duplicate-name candidate
list: among two apps both named `Prod` the first is returned; among two
roles both named `Admin` the first is returned; lookups with no match
return `None`. -/
theorem claim_C10_witness :
    _get_app_by_name ([] ++ mkAppEntry raw_Prod ::
      [{ mkAppEntry raw_Dev with name := "Prod" }]) "Prod" = some (mkAppEntry raw_Prod)
    ∧ _get_app_by_name [mkAppEntry raw_Dev] "Prod" = none
    ∧ _get_role_by_name app_DupRoles "Admin"
        = some { name := "Admin", arn := "arn:aws:iam::666:role/Admin" }
    ∧ _get_role_by_name app_RO "Admin" = none :=
  claim_C10_pinned_lookup [] [{ mkAppEntry raw_Dev with name := "Prod" }]
    (mkAppEntry raw_Prod) "Prod" [mkAppEntry raw_Dev] app_DupRoles app_RO
    [] [{ name := "Admin", arn := "arn:aws:iam::777:role/Admin" }]
    { name := "Admin", arn := "arn:aws:iam::666:role/Admin" } "Admin"
    (by simp) (by decide) (by decide) (by decide) (by simp) (by decide) (by decide)

/-! ## Claim C6 -/

/-- **C6 (counterexample).** A pinned role name (`Admin`) absent from the
resolved app's roles (which hold only `ReadOnly`) fails fatally with exit
status 1 — but with the fixed message `No roles available to this user.`,
which does not name the missing identifier, unlike the application stage.
The claimed identical naming policy for both stages is therefore false. -/
theorem claim_C6_counterexample :
    resolveRole app_RO (some "Admin") (fun _ => "0") 0
      = Except.error ("No roles available to this user.", 1)
    ∧ occursStr "Admin" "No roles available to this user." = false :=
  ⟨by decide, by decide⟩

/-- **C6 (amended).** A pinned name with no exact (case-sensitive) match is
fatal at both stages, with exit status 1, no fall-back to interactive
choice (the result is the same for *every* input stream, which is never
read), and no partial mutation (the error is produced before any
credential-store write).  The error message *names the missing identifier
only at the application stage* (`AWS app <name> not found for this user.`);
the role stage prints the fixed message `No roles available to this
user.`. -/
theorem claim_C6_amended (aws_results : List App) (app : App) (s r : String)
    (inputs inputs' : Nat → String) (pos pos' : Nat)
    (hs : s ≠ "") (hnoapp : ∀ x ∈ aws_results, x.name ≠ s)
    (hr : r ≠ "") (hnorole : ∀ x ∈ app.roles, x.name ≠ r) :
    resolveApp aws_results (some s) inputs pos
      = Except.error ("AWS app " ++ s ++ " not found for this user.", 1)
    ∧ resolveRole app (some r) inputs' pos'
      = Except.error ("No roles available to this user.", 1) := by
  have hfals : falsyOpt (some s) = false := by simp [falsyOpt, hs]
  have hfalr : falsyOpt (some r) = false := by simp [falsyOpt, hr]
  have happ : _get_app_by_name aws_results s = none :=
    List.find?_eq_none.mpr (fun x hx => by simp [hnoapp x hx])
  have hrole : _get_role_by_name app r = none :=
    List.find?_eq_none.mpr (fun x hx => by simp [hnorole x hx])
  constructor
  · simp [resolveApp, hfals, happ, pyStrOpt]
  · simp [resolveRole, hfalr, hrole]

/-- **C6 (witness).** The amended theorem applied concretely: app pin
`Absent` against the two-app catalog and role pin `Admin` against an app
with only `ReadOnly`. -/
theorem claim_C6_witness :
    resolveApp twoApps (some "Absent") (fun _ => "0") 0
      = Except.error ("AWS app " ++ "Absent" ++ " not found for this user.", 1)
    ∧ resolveRole app_RO (some "Admin") (fun _ => "1") 7
      = Except.error ("No roles available to this user.", 1) :=
  claim_C6_amended twoApps app_RO "Absent" "Admin" (fun _ => "0") (fun _ => "1") 0 7
    (by decide) (by decide) (by decide) (by decide)

/-! ## Claim C8 -/

/-- **C8.** Exactly one delivery destination per run: when persist mode is
not selected (`str(write_aws_creds) ≠ 'True'`), the delivery writes exactly
the three shell-exportable `export KEY=value` lines to the diagnostic
stream (`sys.stderr`), nothing to standard output, and nothing to the
credential store; and, for *every* delivery, persisting to the store and
emitting to stderr are mutually exclusive. -/
theorem claim_C8_single_destination (write_aws_creds cred_profile : String)
    (aws_rolename : Option String) (creds : Creds) (store : Store)
    (h : write_aws_creds ≠ "True") :
    deliverStage write_aws_creds cred_profile aws_rolename creds store
      = Except.ok { stdout := [],
                    stderr := ["export AWS_ACCESS_KEY_ID=" ++ creds.AccessKeyId,
                               "export AWS_SECRET_ACCESS_KEY=" ++ creds.SecretAccessKey,
                               "export AWS_SESSION_TOKEN=" ++ creds.SessionToken],
                    wrote := none }
    ∧ ∀ (w c : String) (rn : Option String) (cr : Creds) (st : Store) (r : DeliverResult),
        deliverStage w c rn cr st = Except.ok r → (r.wrote = none ∨ r.stderr = []) := by
  constructor
  · simp [deliverStage, h]
  · intro w c rn cr st r hr
    unfold deliverStage at hr
    split at hr
    · split at hr
      · exact absurd hr (by simp)
      · right
        rw [← Except.ok.inj hr]
    · left
      rw [← Except.ok.inj hr]

/-- **C8 (witness).** The theorem applied with `write_aws_creds = "False"`:
the emit-mode delivery for a concrete credential triple. -/
theorem claim_C8_witness :
    deliverStage "False" "default" none creds0 []
      = Except.ok { stdout := [],
                    stderr := ["export AWS_ACCESS_KEY_ID=" ++ creds0.AccessKeyId,
                               "export AWS_SECRET_ACCESS_KEY=" ++ creds0.SecretAccessKey,
                               "export AWS_SESSION_TOKEN=" ++ creds0.SessionToken],
                    wrote := none } :=
  (claim_C8_single_destination "False" "default" none creds0 [] (by decide)).1

/-! ## Claim C9 -/

/-- **C9 (counterexample).** Persist mode with `cred_profile = role` and a
role resolved *interactively* (the `aws_rolename` pin is the falsy empty
string, so `run` prompts; input `"0"` selects the only role, `Admin`): the
run succeeds and submits the resolved role's ARN
`arn:aws:iam::111:role/Admin`, but the credential-store section written is
named by `conf_dict['aws_rolename']` — the empty configured value — and
*not* `Admin`.  The claim that `cred_profile = role` selects the resolved
role's name even when resolved interactively is therefore false. -/
theorem claim_C9_counterexample :
    ∃ out, runFromCatalog conf9 (appListOf [raw_Prod]) (fun _ => "0") "saml"
        (fun _ => creds0) [] = Except.ok out
      ∧ out.request.RoleArn = "arn:aws:iam::111:role/Admin"
      ∧ out.delivery.wrote.map Prod.fst = some ""
      ∧ ("" : String) ≠ "Admin" :=
  ⟨_, rfl, by decide, by decide, by decide⟩

/-- **C9 (amended).** The profile-name policy as implemented:
`cred_profile` lower-cased equal to `default` selects the literal
`default`; lower-cased equal to `role` selects the *configured*
`aws_rolename` value verbatim; any other value is used verbatim.  When the
role was pinned (non-falsy `aws_rolename` that resolved successfully), the
configured value coincides with the resolved role's name — the exact-match
lookup guarantees `role.name = rnv` — but when the role is resolved
interactively the configured (falsy) value, not the resolved name, is
used (see the counterexample). -/
theorem claim_C9_profile_policy (cp rnv : String) (creds : Creds) (st : Store)
    (app : App) (role : Role) (inputs : Nat → String) (pos pos' : Nat)
    (hpin : resolveRole app (some rnv) inputs pos = Except.ok (role, pos'))
    (hne : rnv ≠ "") :
    (∃ res, deliverStage "True" cp (some rnv) creds st = Except.ok res
        ∧ res.wrote.map Prod.fst
            = some (if pyLower cp = "default" then "default"
                    else if pyLower cp = "role" then rnv else cp))
    ∧ role.name = rnv := by
  constructor
  · have hpf : profileNameFor cp (some rnv)
        = Except.ok (if pyLower cp = "default" then "default"
                     else if pyLower cp = "role" then rnv else cp) := by
      unfold profileNameFor
      by_cases h1 : pyLower cp = "default"
      · simp [h1]
      · by_cases h2 : pyLower cp = "role" <;> simp [h1, h2]
    refine ⟨{ stdout := ["writing to  " ++ AWS_CONFIG], stderr := [],
              wrote := some
                ((if pyLower cp = "default" then "default"
                  else if pyLower cp = "role" then rnv else cp),
                 _write_aws_creds st
                   (if pyLower cp = "default" then "default"
                    else if pyLower cp = "role" then rnv else cp)
                   creds.AccessKeyId creds.SecretAccessKey creds.SessionToken) },
            ?_, ?_⟩
    · unfold deliverStage
      rw [if_pos rfl, hpf]
    · rfl
  · have hfal : falsyOpt (some rnv) = false := by simp [falsyOpt, hne]
    unfold resolveRole at hpin
    rw [hfal] at hpin
    simp only [Bool.false_eq_true, if_false] at hpin
    cases hfind : _get_role_by_name app ((some rnv).getD "") with
    | none => rw [hfind] at hpin; exact absurd hpin (by simp)
    | some ro =>
      rw [hfind] at hpin
      have hro := List.find?_some hfind
      have h3 : ro = role := congrArg Prod.fst (Except.ok.inj hpin)
      rw [← h3]
      simpa using hro

/-- **C9 (witness).** The amended theorem applied with a pinned role
`Admin` on the `Prod` app and `cred_profile = role`. -/
theorem claim_C9_witness :
    (∃ res, deliverStage "True" "role" (some "Admin") creds0 [] = Except.ok res
        ∧ res.wrote.map Prod.fst
            = some (if pyLower "role" = "default" then "default"
                    else if pyLower "role" = "role" then "Admin" else "role"))
    ∧ ({ name := "Admin", arn := "arn:aws:iam::111:role/Admin" } : Role).name
        = "Admin" :=
  claim_C9_profile_policy "role" "Admin" creds0 [] (mkAppEntry raw_Prod)
    { name := "Admin", arn := "arn:aws:iam::111:role/Admin" } (fun _ => "") 4 4
    (by decide) (by decide)

/-! ## Lemmas about the credential-store model -/

theorem lookupKV_setKV_self (l : KVList) (k v : String) :
    lookupKV (setKV l k v) k = some v := by
  induction l with
  | nil => simp [setKV, lookupKV]
  | cons kv rest ih =>
    obtain ⟨k', v'⟩ := kv
    by_cases h : k' = k
    · simp [setKV, h, lookupKV]
    · simp [setKV, h, lookupKV, ih]

theorem lookupKV_setKV_ne (l : KVList) (k v q : String) (h : q ≠ k) :
    lookupKV (setKV l k v) q = lookupKV l q := by
  induction l with
  | nil => simp [setKV, lookupKV, Ne.symm h]
  | cons kv rest ih =>
    obtain ⟨k', v'⟩ := kv
    by_cases hk : k' = k
    · subst hk
      simp [setKV, lookupKV, Ne.symm h]
    · simp [setKV, hk, lookupKV, ih]

theorem setKV_eq_of_lookup (l : KVList) (k v : String)
    (h : lookupKV l k = some v) : setKV l k v = l := by
  induction l with
  | nil => simp [lookupKV] at h
  | cons kv rest ih =>
    obtain ⟨k', v'⟩ := kv
    by_cases hk : k' = k
    · subst hk
      rw [lookupKV, if_pos rfl] at h
      simp [setKV, Option.some.inj h]
    · rw [lookupKV, if_neg hk] at h
      simp [setKV, hk, ih h]

theorem map_fst_config_set (c : Store) (p k v : String) :
    (config_set c p k v).map Prod.fst = c.map Prod.fst := by
  induction c with
  | nil => rfl
  | cons sec rest ih =>
    by_cases h : sec.1 = p
    · simp [config_set, h]
    · simp [config_set, h, ih]

theorem has_section_config_set (c : Store) (p k v q : String) :
    has_section (config_set c p k v) q = has_section c q := by
  induction c with
  | nil => rfl
  | cons sec rest ih =>
    by_cases h : sec.1 = p
    · simp [config_set, h, has_section]
    · simp [config_set, h, has_section, ih]

theorem config_get_config_set_self (c : Store) (p k v : String)
    (h : has_section c p = true) :
    config_get (config_set c p k v) p k = some v := by
  induction c with
  | nil => simp [has_section] at h
  | cons sec rest ih =>
    by_cases hp : sec.1 = p
    · simp [config_set, hp, config_get, lookupKV_setKV_self]
    · rw [has_section, Bool.or_eq_true] at h
      rcases h with h | h
      · exact absurd (by simpa using h) hp
      · simp [config_set, hp, config_get, ih h]

theorem config_get_config_set_ne_key (c : Store) (p k v q : String) (h : q ≠ k) :
    config_get (config_set c p k v) p q = config_get c p q := by
  induction c with
  | nil => rfl
  | cons sec rest ih =>
    by_cases hp : sec.1 = p
    · simp [config_set, hp, config_get, lookupKV_setKV_ne _ _ _ _ h]
    · simp [config_set, hp, config_get, ih]

theorem config_set_eq_of_get (c : Store) (p k v : String)
    (h : config_get c p k = some v) : config_set c p k v = c := by
  induction c with
  | nil => rfl
  | cons sec rest ih =>
    obtain ⟨s1, s2⟩ := sec
    by_cases hp : s1 = p
    · simp [config_get, hp] at h
      simp [config_set, hp, setKV_eq_of_lookup _ _ _ h]
    · simp [config_get, hp] at h
      simp [config_set, hp, ih h]

theorem filter_config_set (c : Store) (p k v : String) :
    (config_set c p k v).filter (fun sec => sec.1 != p)
      = c.filter (fun sec => sec.1 != p) := by
  induction c with
  | nil => rfl
  | cons sec rest ih =>
    by_cases h : sec.1 = p
    · have hb : (sec.1 != p) = false := by simp [h]
      simp [config_set, h, List.filter_cons, hb]
    · have hb : (sec.1 != p) = true := by simp [h]
      simp [config_set, h, List.filter_cons, hb, ih]

theorem has_section_eq_mem (c : Store) (p : String) :
    has_section c p = true ↔ p ∈ c.map Prod.fst := by
  induction c with
  | nil => simp [has_section]
  | cons sec rest ih =>
    rw [has_section, Bool.or_eq_true, beq_iff_eq, ih, List.map_cons, List.mem_cons,
      @eq_comm _ sec.1 p]

theorem has_section_add_section_self (c : Store) (p : String) :
    has_section (add_section c p) p = true := by
  induction c with
  | nil => simp [add_section, has_section]
  | cons sec rest ih =>
    rw [add_section] at ih ⊢
    rw [List.cons_append, has_section, ih, Bool.or_true]

theorem config_get_none_of_no_section (c : Store) (p q : String)
    (h : has_section c p = false) : config_get c p q = none := by
  induction c with
  | nil => rfl
  | cons sec rest ih =>
    rw [has_section, Bool.or_eq_false_iff] at h
    have : sec.1 ≠ p := by simpa using h.1
    simp [config_get, this, ih h.2]

theorem config_get_append_right (c d : Store) (p q : String)
    (h : has_section c p = false) :
    config_get (c ++ d) p q = config_get d p q := by
  induction c with
  | nil => rfl
  | cons sec rest ih =>
    rw [has_section, Bool.or_eq_false_iff] at h
    have : sec.1 ≠ p := by simpa using h.1
    simp [config_get, this, ih h.2]

/-- `_write_aws_creds` unfolded: ensure the section, then the three
`config.set` calls in source order. -/
theorem write_ensured (s : Store) (p a k t : String) :
    _write_aws_creds s p a k t
      = config_set (config_set (config_set
          (if has_section s p then s else add_section s p)
          p "aws_access_key_id" a) p "aws_secret_access_key" k)
          p "aws_session_token" t := rfl

theorem has_section_ensure (s : Store) (p : String) :
    has_section (if has_section s p then s else add_section s p) p = true := by
  by_cases h0 : has_section s p = true
  · simp [h0]
  · have h0' : has_section s p = false := by simpa using h0
    simp [h0', has_section_add_section_self]

theorem has_section_write (s : Store) (p a k t : String) :
    has_section (_write_aws_creds s p a k t) p = true := by
  rw [write_ensured, has_section_config_set, has_section_config_set,
    has_section_config_set]
  exact has_section_ensure s p

theorem write_get_access_key (s : Store) (p a k t : String) :
    config_get (_write_aws_creds s p a k t) p "aws_access_key_id" = some a := by
  rw [write_ensured,
    config_get_config_set_ne_key _ _ _ _ _ (by decide),
    config_get_config_set_ne_key _ _ _ _ _ (by decide),
    config_get_config_set_self _ _ _ _ (has_section_ensure s p)]

theorem write_get_secret_key (s : Store) (p a k t : String) :
    config_get (_write_aws_creds s p a k t) p "aws_secret_access_key" = some k := by
  rw [write_ensured,
    config_get_config_set_ne_key _ _ _ _ _ (by decide),
    config_get_config_set_self _ _ _ _
      (by rw [has_section_config_set]; exact has_section_ensure s p)]

theorem write_get_token (s : Store) (p a k t : String) :
    config_get (_write_aws_creds s p a k t) p "aws_session_token" = some t := by
  rw [write_ensured,
    config_get_config_set_self _ _ _ _
      (by rw [has_section_config_set, has_section_config_set]
          exact has_section_ensure s p)]

/-! ## Claim C7 -/

/-- **C7.** Persist-mode delivery is idempotent on profile contents and
frame-preserving: for any pre-existing store with distinct section names,
(i) writing the same triple twice equals writing it once; (ii) the
resulting store has exactly one section named `profile`; (iii–v) that
section maps the three credential fields to the written values; (vi) every
section other than `profile` is unchanged (as a list, order included); and
(vii) every field of the `profile` section other than the three credential
fields is unchanged. -/
theorem claim_C7_persist_idempotent_frame (s : Store) (p a k t : String)
    (hnodup : (s.map Prod.fst).Nodup) :
    _write_aws_creds (_write_aws_creds s p a k t) p a k t
        = _write_aws_creds s p a k t
    ∧ ((_write_aws_creds s p a k t).map Prod.fst).count p = 1
    ∧ config_get (_write_aws_creds s p a k t) p "aws_access_key_id" = some a
    ∧ config_get (_write_aws_creds s p a k t) p "aws_secret_access_key" = some k
    ∧ config_get (_write_aws_creds s p a k t) p "aws_session_token" = some t
    ∧ (_write_aws_creds s p a k t).filter (fun sec => sec.1 != p)
        = s.filter (fun sec => sec.1 != p)
    ∧ ∀ q, q ≠ "aws_access_key_id" → q ≠ "aws_secret_access_key" →
        q ≠ "aws_session_token" →
        config_get (_write_aws_creds s p a k t) p q = config_get s p q := by
  refine ⟨?_, ?_, write_get_access_key s p a k t, write_get_secret_key s p a k t,
    write_get_token s p a k t, ?_, ?_⟩
  · rw [write_ensured (_write_aws_creds s p a k t),
      if_pos (has_section_write s p a k t),
      config_set_eq_of_get _ _ _ _ (write_get_access_key s p a k t),
      config_set_eq_of_get _ _ _ _ (write_get_secret_key s p a k t),
      config_set_eq_of_get _ _ _ _ (write_get_token s p a k t)]
  · rw [write_ensured, map_fst_config_set, map_fst_config_set, map_fst_config_set]
    by_cases h0 : has_section s p = true
    · rw [if_pos h0]
      exact List.count_eq_one_of_mem hnodup ((has_section_eq_mem s p).mp h0)
    · have h0' : has_section s p = false := by simpa using h0
      rw [if_neg (by simp [h0']), add_section, List.map_append, List.count_append]
      have hz : (s.map Prod.fst).count p = 0 := by
        rw [List.count_eq_zero]
        intro hm
        exact absurd ((has_section_eq_mem s p).mpr hm) (by simp [h0'])
      simp [hz]
  · rw [write_ensured, filter_config_set, filter_config_set, filter_config_set]
    by_cases h0 : has_section s p = true
    · rw [if_pos h0]
    · have h0' : has_section s p = false := by simpa using h0
      rw [if_neg (by simp [h0']), add_section, List.filter_append]
      simp
  · intro q hq1 hq2 hq3
    rw [write_ensured,
      config_get_config_set_ne_key _ _ _ _ _ hq3,
      config_get_config_set_ne_key _ _ _ _ _ hq2,
      config_get_config_set_ne_key _ _ _ _ _ hq1]
    by_cases h0 : has_section s p = true
    · rw [if_pos h0]
    · have h0' : has_section s p = false := by simpa using h0
      rw [if_neg (by simp [h0']), add_section,
        config_get_append_right _ _ _ _ h0',
        config_get_none_of_no_section _ _ _ h0']
      simp [config_get, lookupKV]

/-- A pre-existing credentials store: a `default` profile with an old key
and an extra field, plus an unrelated section. -/
def store0 : Store :=
  [("default", [("aws_access_key_id", "OLDKEY"), ("region", "us-east-1")]),
   ("other", [("foo", "bar")])]

/-- **C7 (witness).** The theorem applied to a concrete pre-existing store,
writing profile `default` twice: idempotence, the stored token, and the
untouched unrelated section. -/
theorem claim_C7_witness :
    _write_aws_creds (_write_aws_creds store0 "default" "AK" "SK" "TOK")
        "default" "AK" "SK" "TOK"
      = _write_aws_creds store0 "default" "AK" "SK" "TOK"
    ∧ config_get (_write_aws_creds store0 "default" "AK" "SK" "TOK")
        "default" "aws_session_token" = some "TOK"
    ∧ (_write_aws_creds store0 "default" "AK" "SK" "TOK").filter
        (fun sec => sec.1 != "default")
      = store0.filter (fun sec => sec.1 != "default") := by
  obtain ⟨h1, _, _, _, h5, h6, _⟩ :=
    claim_C7_persist_idempotent_frame store0 "default" "AK" "SK" "TOK" (by decide)
  exact ⟨h1, h5, h6⟩

end GAC
